import Mathlib

/-!
A shallow embedding of the 2D affine transformation matrix class of
transformation-matrix-js (src/matrix.js, v1.5), together with proofs about
its operations.

JavaScript numbers are modelled as elements of a linear ordered field
(exact arithmetic); the claims are settled at the rationals where a
concrete evaluation is needed and at the reals where trigonometry is
needed.  The NaN and undefined values, which arise only inside
applyToArray, are modelled by the none case of Option.  The optional
canvas context is modelled by the state the surface carries: the record of
the six coefficients it last received through its setTransform operation.
-/

namespace TMJS

/-- The external surface (a canvas 2D context in the source): the absolute
transform state it holds, namely the six coefficients last received
through its set-absolute-transform operation. -/
structure Ctx (α : Type) where
  a : α
  b : α
  c : α
  d : α
  e : α
  f : α
deriving DecidableEq

/-- The single operation of the surface contract: the surface records the
six coefficients it is given (no other surface state is observable from
the matrix). -/
def Ctx.setTransform (_ctx : Ctx α) (a b c d e f : α) : Ctx α :=
  ⟨a, b, c, d, e, f⟩

/-- A point object literal with fields x and y, as returned by
applyToPoint (src/matrix.js lines 288-294). -/
structure Point (α : Type) where
  x : α
  y : α
deriving DecidableEq

/-- The Matrix object: the six coefficients a,b,c,d,e,f and the optional
synchronized context (src/matrix.js lines 26-38). -/
structure Matrix (α : Type) where
  a : α
  b : α
  c : α
  d : α
  e : α
  f : α
  context : Option (Ctx α)
deriving DecidableEq

variable {α : Type} [LinearOrderedField α]

/-- The constructor (src/matrix.js lines 26-38): identity coefficients; a
supplied context is immediately reset with setTransform(1,0,0,1,0,0) so
the surface and the fresh matrix start in sync. -/
def Matrix.new (context : Option (Ctx α)) : Matrix α :=
  ⟨1, 0, 0, 1, 0, 0, context.map fun ctx => ctx.setTransform 1 0 0 1 0 0⟩

/-- The private sync hook _setCtx (src/matrix.js lines 414-417): when a
context is attached, push the current six coefficients to it. -/
def Matrix._setCtx (m : Matrix α) : Matrix α :=
  ⟨m.a, m.b, m.c, m.d, m.e, m.f,
   m.context.map fun ctx => ctx.setTransform m.a m.b m.c m.d m.e m.f⟩

/-- transform (src/matrix.js lines 202-226): snapshot the six current
coefficients into a1..f1, then assign all six products, then _setCtx. -/
def Matrix.transform (m : Matrix α) (a2 b2 c2 d2 e2 f2 : α) : Matrix α :=
  let a1 := m.a
  let b1 := m.b
  let c1 := m.c
  let d1 := m.d
  let e1 := m.e
  let f1 := m.f
  Matrix._setCtx
    ⟨a1 * a2 + c1 * b2,
     b1 * a2 + d1 * b2,
     a1 * c2 + c1 * d2,
     b1 * c2 + d1 * d2,
     a1 * e2 + c1 * f2 + e1,
     b1 * e2 + d1 * f2 + f1,
     m.context⟩

/-- setTransform (src/matrix.js lines 153-163): overwrite the six
coefficients, then _setCtx. -/
def Matrix.setTransform (m : Matrix α) (a b c d e f : α) : Matrix α :=
  Matrix._setCtx ⟨a, b, c, d, e, f, m.context⟩

/-- reset (src/matrix.js lines 61-66): back to identity, then _setCtx. -/
def Matrix.reset (m : Matrix α) : Matrix α :=
  Matrix._setCtx ⟨1, 0, 0, 1, 0, 0, m.context⟩

/-- flipX (src/matrix.js lines 45-48). -/
def Matrix.flipX (m : Matrix α) : Matrix α :=
  m.transform (-1) 0 0 1 0 0

/-- flipY (src/matrix.js lines 53-56). -/
def Matrix.flipY (m : Matrix α) : Matrix α :=
  m.transform 1 0 0 (-1) 0 0

/-- scale (src/matrix.js lines 93-96). -/
def Matrix.scale (m : Matrix α) (sx sy : α) : Matrix α :=
  m.transform sx 0 0 sy 0 0

/-- scaleX (src/matrix.js lines 102-105). -/
def Matrix.scaleX (m : Matrix α) (sx : α) : Matrix α :=
  m.transform sx 0 0 1 0 0

/-- scaleY (src/matrix.js lines 111-114). -/
def Matrix.scaleY (m : Matrix α) (sy : α) : Matrix α :=
  m.transform 1 0 0 sy 0 0

/-- skew (src/matrix.js lines 121-124). -/
def Matrix.skew (m : Matrix α) (sx sy : α) : Matrix α :=
  m.transform 1 sy sx 1 0 0

/-- skewX (src/matrix.js lines 130-133). -/
def Matrix.skewX (m : Matrix α) (sx : α) : Matrix α :=
  m.transform 1 0 sx 1 0 0

/-- skewY (src/matrix.js lines 139-142). -/
def Matrix.skewY (m : Matrix α) (sy : α) : Matrix α :=
  m.transform 1 sy 0 1 0 0

/-- translate (src/matrix.js lines 170-173). -/
def Matrix.translate (m : Matrix α) (tx ty : α) : Matrix α :=
  m.transform 1 0 0 1 tx ty

/-- translateX (src/matrix.js lines 179-182). -/
def Matrix.translateX (m : Matrix α) (tx : α) : Matrix α :=
  m.transform 1 0 0 1 tx 0

/-- translateY (src/matrix.js lines 188-191). -/
def Matrix.translateY (m : Matrix α) (ty : α) : Matrix α :=
  m.transform 1 0 0 1 0 ty

/-- rotate (src/matrix.js lines 72-77), at the reals where cosine and sine
live: transform(cos angle, sin angle, -sin angle, cos angle, 0, 0). -/
noncomputable def Matrix.rotate (m : Matrix ℝ) (angle : ℝ) : Matrix ℝ :=
  m.transform (Real.cos angle) (Real.sin angle)
    (-(Real.sin angle)) (Real.cos angle) 0 0

/-- getInverse (src/matrix.js lines 234-253): adjugate over the
determinant dt = a*d - b*c; the returned instance is a fresh
`new Matrix()` whose context is unset. -/
def Matrix.getInverse (m : Matrix α) : Matrix α :=
  let a := m.a
  let b := m.b
  let c := m.c
  let d := m.d
  let e := m.e
  let f := m.f
  let dt := a * d - b * c
  ⟨d / dt, -b / dt, -c / dt, a / dt,
   (c * f - d * e) / dt, -(a * f - b * e) / dt, none⟩

/-- interpolate (src/matrix.js lines 266-278): per-coefficient linear
interpolation into a fresh `new Matrix()` whose context is unset. -/
def Matrix.interpolate (m m2 : Matrix α) (t : α) : Matrix α :=
  ⟨m.a + (m2.a - m.a) * t,
   m.b + (m2.b - m.b) * t,
   m.c + (m2.c - m.c) * t,
   m.d + (m2.d - m.d) * t,
   m.e + (m2.e - m.e) * t,
   m.f + (m2.f - m.f) * t,
   none⟩

/-- Modelled from the spec: the readme documents a clone method but its
body is not among the repository source files; the spec (section 4.1)
states that Clone returns a new instance with identical coefficients and
that the surface reference is not copied. -/
def Matrix.clone (m : Matrix α) : Matrix α :=
  ⟨m.a, m.b, m.c, m.d, m.e, m.f, none⟩

/-- applyToPoint (src/matrix.js lines 288-294). -/
def Matrix.applyToPoint (m : Matrix α) (x y : α) : Point α :=
  ⟨x * m.a + y * m.c + m.e, x * m.b + y * m.d + m.f⟩

/-- _isEqual (src/matrix.js lines 406-408): the fixed epsilon comparison;
the source literal 1e-14 is the rational 1 / 10 ^ 14. -/
def Matrix._isEqual (f1 f2 : α) : Prop :=
  |f1 - f2| < 1 / 10 ^ 14

/-- isIdentity (src/matrix.js lines 375-382). -/
def Matrix.isIdentity (m : Matrix α) : Prop :=
  Matrix._isEqual m.a 1 ∧ Matrix._isEqual m.b 0 ∧ Matrix._isEqual m.c 0 ∧
  Matrix._isEqual m.d 1 ∧ Matrix._isEqual m.e 0 ∧ Matrix._isEqual m.f 0

/-- isEqual (src/matrix.js lines 390-397). -/
def Matrix.isEqual (m mm : Matrix α) : Prop :=
  Matrix._isEqual m.a mm.a ∧ Matrix._isEqual m.b mm.b ∧
  Matrix._isEqual m.c mm.c ∧ Matrix._isEqual m.d mm.d ∧
  Matrix._isEqual m.e mm.e ∧ Matrix._isEqual m.f mm.f

/-- The surface state that mirrors the matrix exactly. -/
def Matrix.mirror (m : Matrix α) : Ctx α :=
  ⟨m.a, m.b, m.c, m.d, m.e, m.f⟩

/-- The attached surface, if any, holds exactly the matrix's current six
coefficients. -/
def Matrix.syncedWithContext (m : Matrix α) : Prop :=
  m.context = some m.mirror

instance (x y : α) : Decidable (Matrix._isEqual x y) :=
  inferInstanceAs (Decidable (|x - y| < 1 / 10 ^ 14))

instance (m : Matrix α) : Decidable m.isIdentity :=
  inferInstanceAs (Decidable (_ ∧ _ ∧ _ ∧ _ ∧ _ ∧ _))

instance (m mm : Matrix α) : Decidable (m.isEqual mm) :=
  inferInstanceAs (Decidable (_ ∧ _ ∧ _ ∧ _ ∧ _ ∧ _))

instance [DecidableEq α] (m : Matrix α) : Decidable m.syncedWithContext :=
  inferInstanceAs (Decidable (m.context = some m.mirror))

/-- Claim C1: transform computes all six outputs as the homogeneous matrix
product of the pre-update coefficients with the incoming six-tuple; every
output is expressed purely in terms of the pre-update values of the six
coefficients, so no partially-updated coefficient is ever read. -/
theorem transform_computes_product (m : Matrix α) (a2 b2 c2 d2 e2 f2 : α) :
    (m.transform a2 b2 c2 d2 e2 f2).a = m.a * a2 + m.c * b2 ∧
    (m.transform a2 b2 c2 d2 e2 f2).b = m.b * a2 + m.d * b2 ∧
    (m.transform a2 b2 c2 d2 e2 f2).c = m.a * c2 + m.c * d2 ∧
    (m.transform a2 b2 c2 d2 e2 f2).d = m.b * c2 + m.d * d2 ∧
    (m.transform a2 b2 c2 d2 e2 f2).e = m.a * e2 + m.c * f2 + m.e ∧
    (m.transform a2 b2 c2 d2 e2 f2).f = m.b * e2 + m.d * f2 + m.f :=
  ⟨rfl, rfl, rfl, rfl, rfl, rfl⟩

/-- Two equal values are equal within the epsilon tolerance. -/
lemma _isEqual_of_eq {x y : α} (h : x = y) : Matrix._isEqual x y := by
  unfold Matrix._isEqual
  rw [h, sub_self, abs_zero]
  positivity

/-- Claim C3: composing a matrix, via transform, with the six coefficients
of its getInverse yields an isIdentity matrix whenever the determinant
a*d - b*c is nonzero. -/
theorem transform_with_inverse_isIdentity (m : Matrix α)
    (h : m.a * m.d - m.b * m.c ≠ 0) :
    (m.transform m.getInverse.a m.getInverse.b m.getInverse.c
      m.getInverse.d m.getInverse.e m.getInverse.f).isIdentity := by
  refine ⟨_isEqual_of_eq ?_, _isEqual_of_eq ?_, _isEqual_of_eq ?_,
          _isEqual_of_eq ?_, _isEqual_of_eq ?_, _isEqual_of_eq ?_⟩ <;>
    simp only [Matrix.transform, Matrix.getInverse, Matrix._setCtx] <;>
    field_simp <;>
    ring

/-- A concrete invertible rational matrix used to witness claim C3. -/
def mWitInv : Matrix ℚ :=
  ⟨2, 0, 1, 3, 5, 7, none⟩

/-- Witness for claim C3 at a concrete invertible matrix. -/
theorem transform_with_inverse_isIdentity_witness :
    (mWitInv.transform mWitInv.getInverse.a mWitInv.getInverse.b
      mWitInv.getInverse.c mWitInv.getInverse.d mWitInv.getInverse.e
      mWitInv.getInverse.f).isIdentity :=
  transform_with_inverse_isIdentity mWitInv (by norm_num [mWitInv])

/-- Claim C4: every mutating operation ends with the attached surface (when
present) holding the instance's current six coefficients: transform (hence
every named accumulating transform, all of which route through it),
setTransform, reset, and construction with a supplied surface. -/
theorem mutations_sync_context (m : Matrix α) (a2 b2 c2 d2 e2 f2 : α)
    (s : Ctx α) (h : m.context.isSome) :
    (m.transform a2 b2 c2 d2 e2 f2).syncedWithContext ∧
    (m.setTransform a2 b2 c2 d2 e2 f2).syncedWithContext ∧
    m.reset.syncedWithContext ∧
    (Matrix.new (some s)).syncedWithContext := by
  obtain ⟨ctx, hctx⟩ := Option.isSome_iff_exists.mp h
  refine ⟨?_, ?_, ?_, ?_⟩ <;>
    simp [Matrix.transform, Matrix.setTransform, Matrix.reset, Matrix.new,
      Matrix._setCtx, Matrix.syncedWithContext, Matrix.mirror,
      Ctx.setTransform, hctx]

/-- A concrete rational matrix with an attached surface, used to witness
claim C4. -/
def mWitCtx : Matrix ℚ :=
  ⟨1, 2, 3, 4, 5, 6, some ⟨0, 0, 0, 0, 0, 0⟩⟩

/-- Witness for claim C4 at a concrete matrix holding a surface. -/
theorem mutations_sync_context_witness :
    (mWitCtx.transform 7 8 9 10 11 12).syncedWithContext ∧
    (mWitCtx.setTransform 7 8 9 10 11 12).syncedWithContext ∧
    mWitCtx.reset.syncedWithContext ∧
    (Matrix.new (some (⟨0, 0, 0, 0, 0, 0⟩ : Ctx ℚ))).syncedWithContext :=
  mutations_sync_context mWitCtx 7 8 9 10 11 12 ⟨0, 0, 0, 0, 0, 0⟩
    (by simp [mWitCtx])

/-- Claim C5: the epsilon comparison treats two values as equal exactly
when their absolute difference is strictly below 1e-14 = 1/10^14; both
isIdentity and isEqual are exactly the six comparisons through this one
fixed tolerance; matrices differing by 5e-15 in every field are isEqual,
and matrices differing by 1e-13 in some field are not. -/
theorem epsilon_equality_semantics :
    (∀ x y : ℚ, Matrix._isEqual x y ↔ |x - y| < 1 / 10 ^ 14) ∧
    (∀ m : Matrix ℚ, m.isIdentity ↔
      (Matrix._isEqual m.a 1 ∧ Matrix._isEqual m.b 0 ∧
       Matrix._isEqual m.c 0 ∧ Matrix._isEqual m.d 1 ∧
       Matrix._isEqual m.e 0 ∧ Matrix._isEqual m.f 0)) ∧
    (∀ m1 m2 : Matrix ℚ, m1.isEqual m2 ↔
      (Matrix._isEqual m1.a m2.a ∧ Matrix._isEqual m1.b m2.b ∧
       Matrix._isEqual m1.c m2.c ∧ Matrix._isEqual m1.d m2.d ∧
       Matrix._isEqual m1.e m2.e ∧ Matrix._isEqual m1.f m2.f)) ∧
    (∀ m1 m2 : Matrix ℚ,
      (|m1.a - m2.a| = 5 / 10 ^ 15 ∧ |m1.b - m2.b| = 5 / 10 ^ 15 ∧
       |m1.c - m2.c| = 5 / 10 ^ 15 ∧ |m1.d - m2.d| = 5 / 10 ^ 15 ∧
       |m1.e - m2.e| = 5 / 10 ^ 15 ∧ |m1.f - m2.f| = 5 / 10 ^ 15) →
      m1.isEqual m2) ∧
    (∀ m1 m2 : Matrix ℚ,
      (|m1.a - m2.a| = 1 / 10 ^ 13 ∨ |m1.b - m2.b| = 1 / 10 ^ 13 ∨
       |m1.c - m2.c| = 1 / 10 ^ 13 ∨ |m1.d - m2.d| = 1 / 10 ^ 13 ∨
       |m1.e - m2.e| = 1 / 10 ^ 13 ∨ |m1.f - m2.f| = 1 / 10 ^ 13) →
      ¬ m1.isEqual m2) := by
  refine ⟨fun x y => Iff.rfl, fun m => Iff.rfl, fun m1 m2 => Iff.rfl,
    ?_, ?_⟩
  · rintro m1 m2 ⟨ha, hb, hc, hd, he, hf⟩
    refine ⟨?_, ?_, ?_, ?_, ?_, ?_⟩ <;>
      simp only [Matrix._isEqual, ha, hb, hc, hd, he, hf] <;>
      norm_num
  · rintro m1 m2 hbig ⟨ha, hb, hc, hd, he, hf⟩
    simp only [Matrix._isEqual] at ha hb hc hd he hf
    rcases hbig with h | h | h | h | h | h <;> linarith

/-- Claim C6: interpolation at t = 0 is isEqual to the first matrix and at
t = 1 is isEqual to the second, for every pair of matrices. -/
theorem interpolate_boundary (m1 m2 : Matrix α) :
    (m1.interpolate m2 0).isEqual m1 ∧ (m1.interpolate m2 1).isEqual m2 := by
  refine ⟨⟨?_, ?_, ?_, ?_, ?_, ?_⟩, ⟨?_, ?_, ?_, ?_, ?_, ?_⟩⟩ <;>
    refine _isEqual_of_eq ?_ <;>
    simp only [Matrix.interpolate] <;>
    ring

/-- Claim C7: the derived instances produced by clone, getInverse and
interpolate carry no attached surface reference, whatever the originating
matrix holds. -/
theorem derived_instances_have_no_context (m m2 : Matrix α) (t : α) :
    m.clone.context = none ∧ m.getInverse.context = none ∧
    (m.interpolate m2 t).context = none :=
  ⟨rfl, rfl, rfl⟩

/-- An element of the JavaScript array handed to applyToArray: either a
number (none standing for NaN) or a point record with fields x and y (a
none field standing for NaN). -/
inductive JVal (α : Type) where
  | num : Option α → JVal α
  | pt : Option α → Option α → JVal α
deriving DecidableEq

/-- Reading an array slot as a number, as the flat branch of applyToArray
does: a missing slot (undefined, from an out-of-range index) and a point
record both turn into NaN under arithmetic. -/
def toNum : Option (JVal α) → Option α
  | some (JVal.num x) => x
  | _ => none

/-- applyToPoint on JavaScript numbers that may be NaN or undefined: any
such operand contaminates both outputs, since every term of each output
mixes x, y and a coefficient through IEEE arithmetic in which NaN
propagates. -/
def Matrix.applyToPointJ (m : Matrix α) : Option α → Option α → Option α × Option α
  | some x, some y => (some (m.applyToPoint x y).x, some (m.applyToPoint x y).y)
  | _, _ => (none, none)

/-- The flat branch of applyToArray (src/matrix.js lines 318-326): the
while loop consumes two slots per iteration; when the length is odd the
final iteration reads one slot past the end of the input. -/
def Matrix.applyFlat (m : Matrix α) : List (JVal α) → List (JVal α)
  | [] => []
  | [v] =>
    let p := m.applyToPointJ (toNum (some v)) (toNum none)
    [JVal.num p.1, JVal.num p.2]
  | v :: w :: rest =>
    let p := m.applyToPointJ (toNum (some v)) (toNum (some w))
    JVal.num p.1 :: JVal.num p.2 :: m.applyFlat rest

/-- JavaScript truthiness of an array element, which drives the record
branch loop condition p = points[i]: the number 0 and NaN are falsy, any
record is truthy. -/
def truthy [DecidableEq α] : JVal α → Bool
  | JVal.num none => false
  | JVal.num (some x) => if x = 0 then false else true
  | JVal.pt _ _ => true

/-- The record branch of applyToArray (src/matrix.js lines 327-331): loop
while the current element is truthy, pushing applyToPoint of its x and y
fields; a truthy number read in this branch yields undefined fields and
hence a NaN point. -/
def Matrix.applyObj [DecidableEq α] (m : Matrix α) : List (JVal α) → List (JVal α)
  | [] => []
  | v :: rest =>
    if truthy v then
      (match v with
       | JVal.pt x y =>
         let p := m.applyToPointJ x y
         JVal.pt p.1 p.2
       | JVal.num _ =>
         let p := m.applyToPointJ none none
         JVal.pt p.1 p.2) :: m.applyObj rest
    else []

/-- applyToArray (src/matrix.js lines 314-334): dispatch on whether the
first element is a number; an empty array falls to the record branch,
whose loop condition is immediately falsy. -/
def Matrix.applyToArray [DecidableEq α] (m : Matrix α)
    (points : List (JVal α)) : List (JVal α) :=
  match points with
  | JVal.num x :: rest => m.applyFlat (JVal.num x :: rest)
  | ps => m.applyObj ps

/-- The flat-pair encoding of a list of finite coordinate pairs. -/
def pairsToFlat : List (α × α) → List (JVal α)
  | [] => []
  | p :: r => JVal.num (some p.1) :: JVal.num (some p.2) :: pairsToFlat r

/-- The record encoding of a list of finite points. -/
def recordsToArr (qs : List (Point α)) : List (JVal α) :=
  qs.map fun q => JVal.pt (some q.x) (some q.y)

/-- The flat branch maps each consecutive pair through applyToPoint. -/
lemma applyFlat_pairsToFlat (m : Matrix α) (ps : List (α × α)) :
    m.applyFlat (pairsToFlat ps) =
      pairsToFlat (ps.map fun p =>
        ((m.applyToPoint p.1 p.2).x, (m.applyToPoint p.1 p.2).y)) := by
  induction ps with
  | nil => rfl
  | cons p r ih =>
    simp only [pairsToFlat, Matrix.applyFlat, Matrix.applyToPointJ, toNum,
      List.map_cons, ih]

/-- The flat branch on an odd-length list of finite numbers: the pairs are
mapped through applyToPoint and the dangling final element pairs with an
out-of-range read, producing two NaN outputs. -/
lemma applyFlat_pairsToFlat_odd (m : Matrix α) (ps : List (α × α)) (x : α) :
    m.applyFlat (pairsToFlat ps ++ [JVal.num (some x)]) =
      pairsToFlat (ps.map fun p =>
        ((m.applyToPoint p.1 p.2).x, (m.applyToPoint p.1 p.2).y)) ++
      [JVal.num none, JVal.num none] := by
  induction ps with
  | nil => rfl
  | cons p r ih =>
    simp only [pairsToFlat, List.cons_append, Matrix.applyFlat,
      Matrix.applyToPointJ, toNum, List.map_cons, List.append_eq, ih]

/-- The record branch maps each record through applyToPoint. -/
lemma applyObj_recordsToArr [DecidableEq α] (m : Matrix α)
    (qs : List (Point α)) :
    m.applyObj (recordsToArr qs) =
      recordsToArr (qs.map fun q => m.applyToPoint q.x q.y) := by
  induction qs with
  | nil => rfl
  | cons q r ih =>
    simp only [recordsToArr, List.map_cons, Matrix.applyObj, truthy,
      Matrix.applyToPointJ, if_true, Point.mk.injEq]
    simp only [recordsToArr, List.map_cons] at ih
    simp [ih]

omit [LinearOrderedField α] in
/-- The flat-pair encoding has twice as many scalars as there are pairs. -/
lemma pairsToFlat_length (l : List (α × α)) :
    (pairsToFlat l).length = 2 * l.length := by
  induction l with
  | nil => rfl
  | cons p r ih =>
    simp only [pairsToFlat, List.length_cons, ih]
    ring

/-- Claim C8: applyToArray detects the representation from the first
element and echoes it; a non-empty flat even-length input yields a flat
output of the same scalar count with each pair mapped through
applyToPoint, and a non-empty record input yields a record output of the
same element count.  The embedding is a pure function of the input list,
which is therefore left unmodified. -/
theorem applyToArray_echoes_representation [DecidableEq α] (m : Matrix α)
    (ps : List (α × α)) (qs : List (Point α))
    (hps : ps ≠ []) (hqs : qs ≠ []) :
    m.applyToArray (pairsToFlat ps) =
      pairsToFlat (ps.map fun p =>
        ((m.applyToPoint p.1 p.2).x, (m.applyToPoint p.1 p.2).y)) ∧
    (m.applyToArray (pairsToFlat ps)).length = (pairsToFlat ps).length ∧
    m.applyToArray (recordsToArr qs) =
      recordsToArr (qs.map fun q => m.applyToPoint q.x q.y) ∧
    (m.applyToArray (recordsToArr qs)).length = (recordsToArr qs).length := by
  obtain ⟨p, ps, rfl⟩ := List.exists_cons_of_ne_nil hps
  obtain ⟨q, qs, rfl⟩ := List.exists_cons_of_ne_nil hqs
  have h1 : m.applyToArray (pairsToFlat (p :: ps)) =
      pairsToFlat ((p :: ps).map fun pp =>
        ((m.applyToPoint pp.1 pp.2).x, (m.applyToPoint pp.1 pp.2).y)) := by
    rw [← applyFlat_pairsToFlat]
    rfl
  have h2 : m.applyToArray (recordsToArr (q :: qs)) =
      recordsToArr ((q :: qs).map fun r => m.applyToPoint r.x r.y) := by
    rw [← applyObj_recordsToArr]
    rfl
  refine ⟨h1, ?_, h2, ?_⟩
  · rw [h1, pairsToFlat_length, pairsToFlat_length, List.length_map]
  · rw [h2]
    simp [recordsToArr]

/-- A concrete rational matrix used to witness claims about applyToArray. -/
def mWitArr : Matrix ℚ :=
  ⟨2, 0, 0, 3, 10, 20, none⟩

/-- Witness for claim C8 at concrete flat and record inputs. -/
theorem applyToArray_echoes_representation_witness :
    mWitArr.applyToArray (pairsToFlat [(1, 2), (3, 4)]) =
      pairsToFlat ([(1, 2), (3, 4)].map fun p =>
        ((mWitArr.applyToPoint p.1 p.2).x, (mWitArr.applyToPoint p.1 p.2).y)) ∧
    (mWitArr.applyToArray (pairsToFlat [(1, 2), (3, 4)])).length =
      (pairsToFlat [(1, 2), (3, 4)]).length ∧
    mWitArr.applyToArray (recordsToArr [(⟨5, 6⟩ : Point ℚ)]) =
      recordsToArr ([(⟨5, 6⟩ : Point ℚ)].map fun q =>
        mWitArr.applyToPoint q.x q.y) ∧
    (mWitArr.applyToArray (recordsToArr [(⟨5, 6⟩ : Point ℚ)])).length =
      (recordsToArr [(⟨5, 6⟩ : Point ℚ)]).length :=
  applyToArray_echoes_representation mWitArr [(1, 2), (3, 4)] [⟨5, 6⟩]
    (by simp) (by simp)

/-- Claim C9: applyToArray on an empty input returns the empty output
without any failure: the dispatch falls to the record branch whose loop
condition is immediately falsy. -/
theorem applyToArray_empty [DecidableEq α] (m : Matrix α) :
    m.applyToArray ([] : List (JVal α)) = [] :=
  rfl

/-- Claim C10: on an odd-length flat numeric input of length n the final
iteration reads one slot past the end of the input (an undefined value),
no error is raised, and the result is a flat array of length n + 1 whose
last two elements are NaN. -/
theorem applyToArray_odd_flat_nan [DecidableEq α] (m : Matrix α)
    (ps : List (α × α)) (x : α) :
    m.applyToArray (pairsToFlat ps ++ [JVal.num (some x)]) =
      pairsToFlat (ps.map fun p =>
        ((m.applyToPoint p.1 p.2).x, (m.applyToPoint p.1 p.2).y)) ++
      [JVal.num none, JVal.num none] ∧
    (m.applyToArray (pairsToFlat ps ++ [JVal.num (some x)])).length =
      (pairsToFlat ps ++ [JVal.num (some x)]).length + 1 := by
  have hd : m.applyToArray (pairsToFlat ps ++ [JVal.num (some x)]) =
      m.applyFlat (pairsToFlat ps ++ [JVal.num (some x)]) := by
    cases ps with
    | nil => rfl
    | cons p r => rfl
  rw [hd, applyFlat_pairsToFlat_odd]
  refine ⟨rfl, ?_⟩
  simp only [List.length_append, pairsToFlat_length, List.length_map,
    List.length_cons, List.length_nil]

/-- Evaluation of the chain of claim C2: starting from a fresh identity
matrix, rotate by pi/2, then translate(10,0), then applyToPoint(1,0).
The rotation turns the basis into a = cos, b = sin, c = -sin, d = cos, and
the subsequent translate composes through that rotated basis, giving
e = 10*cos and f = 10*sin; the applied point is (11*cos(pi/2),
11*sin(pi/2)) = (0, 11). -/
lemma rotate_translate_apply_eval :
    (((Matrix.new (none : Option (Ctx ℝ))).rotate (Real.pi / 2)).translate
        10 0).applyToPoint 1 0 = ⟨0, 11⟩ := by
  simp only [Matrix.new, Matrix.rotate, Matrix.translate, Matrix.transform,
    Matrix._setCtx, Matrix.applyToPoint, Real.cos_pi_div_two,
    Real.sin_pi_div_two, Point.mk.injEq]
  norm_num

/-- Claim C2 as stated is false on the code: the chain rotate(pi/2) then
translate(10,0) applied to the point (1,0) does not return (10,1) within
the 1e-14 tolerance. -/
theorem rotate_translate_apply_not_ten_one :
    ¬ (|((((Matrix.new (none : Option (Ctx ℝ))).rotate
            (Real.pi / 2)).translate 10 0).applyToPoint 1 0).x - 10| <
          1 / 10 ^ 14 ∧
       |((((Matrix.new (none : Option (Ctx ℝ))).rotate
            (Real.pi / 2)).translate 10 0).applyToPoint 1 0).y - 1| <
          1 / 10 ^ 14) := by
  rw [rotate_translate_apply_eval]
  norm_num

/-- Claim C2 amended: the chain rotate(pi/2) then translate(10,0) applied
to the point (1,0) returns the point (0, 11), each component within the
1e-14 tolerance (here exactly). -/
theorem rotate_translate_apply_point :
    |((((Matrix.new (none : Option (Ctx ℝ))).rotate
          (Real.pi / 2)).translate 10 0).applyToPoint 1 0).x - 0| <
        1 / 10 ^ 14 ∧
    |((((Matrix.new (none : Option (Ctx ℝ))).rotate
          (Real.pi / 2)).translate 10 0).applyToPoint 1 0).y - 11| <
        1 / 10 ^ 14 := by
  rw [rotate_translate_apply_eval]
  norm_num

end TMJS
